import Mathlib

/-!
Verification of the faceted filtering / aggregation logic of the book-bans
front-ends: the explore app (`apps/explore/src/App.vue`), the map app's
info panel and main script, and the subject-by-geography report.

The JSON book records are loosely typed; the embedding models an absent or
non-array `bans` field as `none`, and the mixed scalar/array `subjects`
field with a dedicated three-case type.  String fields that the code only
tests for truthiness are modelled as `String`, with `""` standing for both
the empty string and an absent value (both are falsy in the source).
-/

namespace BookBans

/-- Shape of the loosely typed `subjects` field of a book record: absent,
a single scalar string, or an array of strings.  The front-ends distinguish
the cases with `Array.isArray(book.subjects)` and truthiness tests. -/
inductive SubjectsField
  | missing
  | scalar (s : String)
  | array (l : List String)
  deriving DecidableEq

/-- One ban event.  `ban_status` may be absent in the data; absence is
modelled as `""` (the code only compares it or tests truthiness). -/
structure Ban where
  state : String
  district : String
  ban_status : String
  deriving DecidableEq

/-- A book record as consumed by the front-ends.  `bans = none` models an
absent or non-array `bans` field; `title`/`author` are optional (the code
uses optional chaining on them). -/
structure Book where
  title : Option String
  author : Option String
  subjects : SubjectsField
  bans : Option (List Ban)
  popularityLevel : String
  deriving DecidableEq

/-- Character list of a string lower-cased (models `toLowerCase()`). -/
def lcChars (s : String) : List Char := s.data.map Char.toLower

/-- Substring containment on character lists (models JS `includes`). -/
def charsContain (hay needle : List Char) : Bool :=
  (List.range (hay.length + 1)).any fun i => needle.isPrefixOf (hay.drop i)

/-- The explore app's facet selection: the refs read by `filteredBooks`
in `App.vue` (selected subjects, states, districts and search query). -/
structure Selection where
  selectedSubjects : List String
  selectedStates : List String
  selectedDistricts : List String
  searchQuery : String
  deriving DecidableEq

/-- The initial selection of the explore app: all lists empty, query empty. -/
def emptySelection : Selection :=
  { selectedSubjects := [], selectedStates := [], selectedDistricts := [],
    searchQuery := "" }

/-- State normalization of the explore app:
`ban.state === 'Nation' ? 'DoDEA' : ban.state`. -/
def normState (s : String) : String := if s = "Nation" then "DoDEA" else s

/-- Search clause of `filteredBooks` (App.vue lines 46-52): skipped when the
query is empty (falsy), otherwise a case-insensitive substring match against
title or author, with a missing field matching nothing. -/
def searchClause (query : String) (b : Book) : Bool :=
  if query = "" then true
  else
    (match b.title with
     | some t => charsContain (lcChars t) (lcChars query)
     | none => false) ||
    (match b.author with
     | some a => charsContain (lcChars a) (lcChars query)
     | none => false)

/-- Subject clause of `filteredBooks` (App.vue lines 55-61): with a
non-empty selection the book must have an array `subjects` containing
every selected subject (`selectedSubjects.every(... includes ...)`). -/
def subjectClause (selected : List String) (b : Book) : Bool :=
  if selected.isEmpty then true
  else
    match b.subjects with
    | .array l => selected.all fun v => l.contains v
    | _ => false

/-- State clause of `filteredBooks` (App.vue lines 64-70): every selected
state must equal the normalized state of some ban of the book. -/
def stateClause (selected : List String) (b : Book) : Bool :=
  if selected.isEmpty then true
  else
    match b.bans with
    | some bans => selected.all fun st => bans.any fun ban => normState ban.state == st
    | none => false

/-- District clause of `filteredBooks` (App.vue lines 73-79): raw district
comparison, no normalization. -/
def districtClause (selected : List String) (b : Book) : Bool :=
  if selected.isEmpty then true
  else
    match b.bans with
    | some bans => selected.all fun d => bans.any fun ban => ban.district == d
    | none => false

/-- The conjunctive per-book predicate of `filteredBooks` (App.vue lines
44-82); the early returns of the source make the four clauses a
conjunction. -/
def bookPred (sel : Selection) (b : Book) : Bool :=
  searchClause sel.searchQuery b && subjectClause sel.selectedSubjects b &&
    stateClause sel.selectedStates b && districtClause sel.selectedDistricts b

/-- Ban count used by the sort and the pagination:
`Array.isArray(a.bans) ? a.bans.length : 0`. -/
def banCount (b : Book) : Nat :=
  match b.bans with
  | some l => l.length
  | none => 0

/-- The filter stage of `filteredBooks`, before the ban-count sort. -/
def filteredBooksPre (books : List Book) (sel : Selection) : List Book :=
  books.filter (bookPred sel)

/-- Comparison used by the ban-count sort: the JS comparator
`(a, b) => bBans - aBans` keeps `a` before `b` when `a` has at least as
many bans. -/
def byBansDesc (a b : Book) : Bool := decide (banCount b ≤ banCount a)

/-- `filteredBooks` of the explore app: filter, then sort by descending ban
count.  `Array.prototype.sort` is specified to be stable, so the sort is
modelled with the stable `List.mergeSort`. -/
def filteredBooks (books : List Book) (sel : Selection) : List Book :=
  (filteredBooksPre books sel).mergeSort byBansDesc

/-- `itemsPerPage` constant of the explore app. -/
def itemsPerPage : Nat := 100

/-- `totalPages`: `Math.ceil(filteredBooks.length / itemsPerPage)`,
written as ceiling division on naturals. -/
def totalPages (books : List Book) (sel : Selection) : Nat :=
  ((filteredBooks books sel).length + itemsPerPage - 1) / itemsPerPage

/-- `paginatedBooks`: `filteredBooks.slice(start, start + 100)` with
`start = (currentPage - 1) * itemsPerPage` and a 1-based page number. -/
def paginatedBooks (books : List Book) (sel : Selection) (page : Nat) : List Book :=
  ((filteredBooks books sel).drop ((page - 1) * itemsPerPage)).take itemsPerPage

/-- One increment of a count map: `counts[k] = (counts[k] || 0) + 1`. -/
def incr (m : String → Nat) (k : String) : String → Nat :=
  fun x => if x = k then m k + 1 else m x

/-- Per-book update of `subjectCounts` (App.vue lines 110-118): the set
`new Set(book.subjects)` is iterated and each distinct subject is bumped
once.  The set of distinct values is modelled by `List.dedup`; the JS set
iteration order differs but does not affect the resulting counts, since
each distinct value is bumped exactly once. -/
def addBookSubjects (m : String → Nat) (b : Book) : String → Nat :=
  match b.subjects with
  | .array l => l.dedup.foldl incr m
  | _ => m

/-- Per-book update of `stateCounts` (App.vue lines 124-132):
`new Set(book.bans.map(ban => ban.state === 'Nation' ? 'DoDEA' : ban.state))`. -/
def addBookStates (m : String → Nat) (b : Book) : String → Nat :=
  match b.bans with
  | some bans => ((bans.map fun ban => normState ban.state).dedup).foldl incr m
  | none => m

/-- Per-book update of `districtCounts` (App.vue lines 138-146):
`new Set(book.bans.map(ban => ban.district))`. -/
def addBookDistricts (m : String → Nat) (b : Book) : String → Nat :=
  match b.bans with
  | some bans => ((bans.map fun ban => ban.district).dedup).foldl incr m
  | none => m

/-- `subjectCounts` of the explore app, computed over `filteredBooks` only. -/
def subjectCounts (books : List Book) (sel : Selection) : String → Nat :=
  (filteredBooks books sel).foldl addBookSubjects fun _ => 0

/-- `stateCounts` of the explore app, computed over `filteredBooks` only. -/
def stateCounts (books : List Book) (sel : Selection) : String → Nat :=
  (filteredBooks books sel).foldl addBookStates fun _ => 0

/-- `districtCounts` of the explore app, computed over `filteredBooks` only. -/
def districtCounts (books : List Book) (sel : Selection) : String → Nat :=
  (filteredBooks books sel).foldl addBookDistricts fun _ => 0

/-- Membership of a value in a book's deduplicated subject set: the book
has an array `subjects` containing the value. -/
def hasSubjectVal (v : String) (b : Book) : Bool :=
  match b.subjects with
  | .array l => l.contains v
  | _ => false

/-- Membership of a value in a book's deduplicated normalized-state set. -/
def hasStateVal (v : String) (b : Book) : Bool :=
  match b.bans with
  | some bans => bans.any fun ban => normState ban.state == v
  | none => false

/-- Membership of a value in a book's deduplicated district set. -/
def hasDistrictVal (v : String) (b : Book) : Bool :=
  match b.bans with
  | some bans => bans.any fun ban => ban.district == v
  | none => false

/-- The explore app's UI state that the filter event handlers mutate. -/
structure ExploreState where
  selectedSubjects : List String
  selectedStates : List String
  selectedDistricts : List String
  searchQuery : String
  currentPage : Nat
  deriving DecidableEq

/-- `resetPage` (App.vue lines 102-104): sets the page back to 1. -/
def resetPage (s : ExploreState) : ExploreState := { s with currentPage := 1 }

/-- Toggle of one value in a selection list (`toggleSubject` and friends):
splice out the first occurrence when present, otherwise push at the end. -/
def toggleVal (l : List String) (v : String) : List String :=
  if l.contains v then l.erase v else l ++ [v]

/-- The filter-state-changing operations of the explore app: the facet
toggles, the active-tag removals, the search input (whose `@input` handler
is `resetPage`), and the clear-filters action. -/
inductive Op
  | toggleSubject (v : String)
  | toggleState (v : String)
  | toggleDistrict (v : String)
  | removeSubject (v : String)
  | removeState (v : String)
  | removeDistrict (v : String)
  | setSearchQuery (q : String)
  | clearFilters

/-- Event handlers of the explore app (App.vue lines 181-241 and the
search input binding): each mutates the selection and calls `resetPage`. -/
def applyOp (op : Op) (s : ExploreState) : ExploreState :=
  match op with
  | .toggleSubject v => resetPage { s with selectedSubjects := toggleVal s.selectedSubjects v }
  | .toggleState v => resetPage { s with selectedStates := toggleVal s.selectedStates v }
  | .toggleDistrict v => resetPage { s with selectedDistricts := toggleVal s.selectedDistricts v }
  | .removeSubject v => resetPage { s with selectedSubjects := s.selectedSubjects.erase v }
  | .removeState v => resetPage { s with selectedStates := s.selectedStates.erase v }
  | .removeDistrict v => resetPage { s with selectedDistricts := s.selectedDistricts.erase v }
  | .setSearchQuery q => resetPage { s with searchQuery := q }
  | .clearFilters =>
      resetPage { s with selectedSubjects := [], selectedStates := [],
                         selectedDistricts := [], searchQuery := "" }

/-- Facet selection of the map app's info panel (`part_000`). -/
structure MapSelection where
  selectedSubjects : List String
  selectedBanStatus : List String
  selectedPopularityLevels : List String
  deriving DecidableEq

/-- Subject clause of the map info panel's `filteredBooks` (`part_000`
lines 74-80): `!book.subjects` rejects a missing field and a scalar empty
string; otherwise a scalar is wrapped in a one-element array, and the book
passes when SOME of its subjects is selected (`subjects.some(...)`). -/
def mapSubjectClause (selected : List String) (b : Book) : Bool :=
  if selected.isEmpty then true
  else
    match b.subjects with
    | .missing => false
    | .scalar s => if s = "" then false else [s].any fun x => selected.contains x
    | .array l => l.any fun x => selected.contains x

/-- Ban-status clause of the map info panel's `filteredBooks` (`part_000`
lines 83-86). -/
def mapBanStatusClause (selected : List String) (b : Book) : Bool :=
  if selected.isEmpty then true
  else
    match b.bans with
    | some bans => bans.any fun ban => selected.contains ban.ban_status
    | none => false

/-- Popularity clause of the map info panel's `filteredBooks` (`part_000`
lines 89-91). -/
def mapPopularityClause (selected : List String) (b : Book) : Bool :=
  if selected.isEmpty then true
  else selected.contains b.popularityLevel

/-- The conjunctive per-book predicate of the map info panel's
`filteredBooks` (`part_000` lines 72-95). -/
def mapBookPred (sel : MapSelection) (b : Book) : Bool :=
  mapSubjectClause sel.selectedSubjects b && mapBanStatusClause sel.selectedBanStatus b &&
    mapPopularityClause sel.selectedPopularityLevels b

/-- `filteredBooks` of the map app's info panel: a plain filter, no sort. -/
def mapFilteredBooks (books : List Book) (sel : MapSelection) : List Book :=
  books.filter (mapBookPred sel)

/-- Per-district aggregate of the subject-by-geography report
(`part_001`, `analyzeData`).  The JS objects keyed by string are modelled
as insertion-ordered association lists. -/
structure DistrictAgg where
  subjectCounts : List (String × Nat)
  totalBans : Nat
  deriving DecidableEq

/-- Per-state aggregate of the subject-by-geography report. -/
structure StateAgg where
  districts : List (String × DistrictAgg)
  subjectCounts : List (String × Nat)
  totalBans : Nat
  deriving DecidableEq

/-- `counts[k] = (counts[k] || 0) + 1` on an association list: update the
first entry with the key in place, or append a fresh entry at the end
(JS object insertion order). -/
def bump : List (String × Nat) → String → List (String × Nat)
  | [], k => [(k, 1)]
  | (k1, v) :: rest, k => if k1 = k then (k1, v + 1) :: rest else (k1, v) :: bump rest k

/-- Update the entry of a key in an association list, inserting the default
at the end first when the key is absent (models `m[k] || (m[k] = dflt)`
followed by mutation of `m[k]`). -/
def updateAssoc (m : List (String × α)) (k : String) (dflt : α) (f : α → α) :
    List (String × α) :=
  match m with
  | [] => [(k, f dflt)]
  | (k1, v) :: rest =>
      if k1 = k then (k1, f v) :: rest else (k1, v) :: updateAssoc rest k dflt f

/-- The empty per-district aggregate created on first sight of a district. -/
def emptyDistrictAgg : DistrictAgg := { subjectCounts := [], totalBans := 0 }

/-- The empty per-state aggregate created on first sight of a state. -/
def emptyStateAgg : StateAgg := { districts := [], subjectCounts := [], totalBans := 0 }

/-- Bump each truthy subject of the book (`if (subject)` skips falsy ones). -/
def bumpSubjects (subjects : List String) (m : List (String × Nat)) :
    List (String × Nat) :=
  subjects.foldl (fun acc subj => if subj = "" then acc else bump acc subj) m

/-- Processing of one ban inside `analyzeData` (`part_001` lines 652-683):
skip bans with falsy state or district, otherwise bump every truthy subject
of the book into the state's and the district's `subjectCounts` and add 1
to both `totalBans`. -/
def processBan (subjects : List String) (sd : List (String × StateAgg)) (ban : Ban) :
    List (String × StateAgg) :=
  if ban.state = "" || ban.district = "" then sd
  else
    updateAssoc sd ban.state emptyStateAgg fun st =>
      { districts :=
          updateAssoc st.districts ban.district emptyDistrictAgg fun d =>
            { subjectCounts := bumpSubjects subjects d.subjectCounts,
              totalBans := d.totalBans + 1 },
        subjectCounts := bumpSubjects subjects st.subjectCounts,
        totalBans := st.totalBans + 1 }

/-- Processing of one book inside `analyzeData` (`part_001` lines 648-683):
a book with an absent or non-array `bans` or `subjects` field is skipped
entirely by the early returns. -/
def processBook (sd : List (String × StateAgg)) (b : Book) :
    List (String × StateAgg) :=
  match b.bans, b.subjects with
  | some bans, .array subjects => bans.foldl (processBan subjects) sd
  | _, _ => sd

/-- `analyzeData` of the subject-by-geography report (`part_001` lines
645-687). -/
def analyzeData (books : List Book) : List (String × StateAgg) :=
  books.foldl processBook []

/-- Sample book A of the spec's multi-select example: subjects
`["Fiction"]`. -/
def bookA : Book :=
  { title := some "A", author := none, subjects := .array ["Fiction"],
    bans := none, popularityLevel := "" }

/-- Sample book B of the spec's multi-select example: subjects
`["Fiction", "LGBTQ"]`. -/
def bookB : Book :=
  { title := some "B", author := none, subjects := .array ["Fiction", "LGBTQ"],
    bans := none, popularityLevel := "" }

/-- Explore selection with subjects `{"Fiction", "LGBTQ"}` selected. -/
def exploreSelFL : Selection :=
  { selectedSubjects := ["Fiction", "LGBTQ"], selectedStates := [],
    selectedDistricts := [], searchQuery := "" }

/-- Map selection with subjects `{"Fiction", "LGBTQ"}` selected. -/
def mapSelFL : MapSelection :=
  { selectedSubjects := ["Fiction", "LGBTQ"], selectedBanStatus := [],
    selectedPopularityLevels := [] }

/-- Sample book with the repeated subject list `["a", "a", "b"]`. -/
def bookAAB : Book :=
  { title := none, author := none, subjects := .array ["a", "a", "b"],
    bans := none, popularityLevel := "" }

/-- Sample book with two bans in the same state. -/
def bookTwoTexas : Book :=
  { title := none, author := none, subjects := .missing,
    bans := some [{ state := "Texas", district := "D1", ban_status := "" },
                  { state := "Texas", district := "D2", ban_status := "" }],
    popularityLevel := "" }

/-- Sample book with a ban whose raw state is `"Nation"`. -/
def bookNation : Book :=
  { title := none, author := none, subjects := .missing,
    bans := some [{ state := "Nation", district := "Dept of Defense", ban_status := "" }],
    popularityLevel := "" }

/-- Sample book with no subjects field but two valid bans, for the
`analyzeData` skip behavior. -/
def bookNoSubjects : Book :=
  { title := none, author := none, subjects := .missing,
    bans := some [{ state := "Texas", district := "D1", ban_status := "Banned" },
                  { state := "Iowa", district := "D2", ban_status := "Banned" }],
    popularityLevel := "" }

/-- Sample book with subjects and one valid ban, passing all empty filters. -/
def bookPlain : Book :=
  { title := some "Plain", author := some "Author", subjects := .array ["Fiction"],
    bans := some [{ state := "Iowa", district := "D2", ban_status := "Banned" }],
    popularityLevel := "" }

/-- 250 copies of `bookPlain`, for the pagination boundary example. -/
def books250 : List Book := List.replicate 250 bookPlain

/-- Explore selection with only the subject `"Fiction"` selected. -/
def selFictionOnly : Selection :=
  { selectedSubjects := ["Fiction"], selectedStates := [],
    selectedDistricts := [], searchQuery := "" }

/-- Explore selection with only the state `"DoDEA"` selected. -/
def selDoDEA : Selection :=
  { selectedSubjects := [], selectedStates := ["DoDEA"],
    selectedDistricts := [], searchQuery := "" }

lemma incr_foldl (ks : List String) (hnd : ks.Nodup) (m : String → Nat) (v : String) :
    (ks.foldl incr m) v = m v + (if v ∈ ks then 1 else 0) := by
  induction ks generalizing m with
  | nil => simp
  | cons k rest ih =>
    have hk : k ∉ rest := (List.nodup_cons.mp hnd).1
    have hrest : rest.Nodup := (List.nodup_cons.mp hnd).2
    rw [List.foldl_cons, ih hrest]
    by_cases hv : v = k
    · subst hv
      simp [incr, hk]
    · simp [incr, hv]

lemma addBookSubjects_apply (m : String → Nat) (b : Book) (v : String) :
    addBookSubjects m b v = m v + (if hasSubjectVal v b then 1 else 0) := by
  cases hs : b.subjects with
  | missing => simp [addBookSubjects, hasSubjectVal, hs]
  | scalar s => simp [addBookSubjects, hasSubjectVal, hs]
  | array l =>
    simp only [addBookSubjects, hasSubjectVal, hs]
    rw [incr_foldl _ l.nodup_dedup]
    congr 1
    simp [List.mem_dedup]

lemma addBookStates_apply (m : String → Nat) (b : Book) (v : String) :
    addBookStates m b v = m v + (if hasStateVal v b then 1 else 0) := by
  cases hs : b.bans with
  | none => simp [addBookStates, hasStateVal, hs]
  | some bans =>
    simp only [addBookStates, hasStateVal, hs]
    rw [incr_foldl _ (bans.map fun ban => normState ban.state).nodup_dedup]
    have hiff : (v ∈ (bans.map fun ban => normState ban.state).dedup) ↔
        (bans.any fun ban => normState ban.state == v) = true := by
      simp [List.mem_dedup, List.mem_map, List.any_eq_true, beq_iff_eq]
    simp [hiff]

lemma addBookDistricts_apply (m : String → Nat) (b : Book) (v : String) :
    addBookDistricts m b v = m v + (if hasDistrictVal v b then 1 else 0) := by
  cases hs : b.bans with
  | none => simp [addBookDistricts, hasDistrictVal, hs]
  | some bans =>
    simp only [addBookDistricts, hasDistrictVal, hs]
    rw [incr_foldl _ (bans.map fun ban => ban.district).nodup_dedup]
    have hiff : (v ∈ (bans.map fun ban => ban.district).dedup) ↔
        (bans.any fun ban => ban.district == v) = true := by
      simp [List.mem_dedup, List.mem_map, List.any_eq_true, beq_iff_eq]
    simp [hiff]

lemma foldl_addBookSubjects (l : List Book) (m : String → Nat) (v : String) :
    (l.foldl addBookSubjects m) v = m v + l.countP (hasSubjectVal v) := by
  induction l generalizing m with
  | nil => simp
  | cons b rest ih =>
    rw [List.foldl_cons, ih, List.countP_cons, addBookSubjects_apply]
    by_cases h : hasSubjectVal v b <;> simp [h] <;> omega

lemma foldl_addBookStates (l : List Book) (m : String → Nat) (v : String) :
    (l.foldl addBookStates m) v = m v + l.countP (hasStateVal v) := by
  induction l generalizing m with
  | nil => simp
  | cons b rest ih =>
    rw [List.foldl_cons, ih, List.countP_cons, addBookStates_apply]
    by_cases h : hasStateVal v b <;> simp [h] <;> omega

lemma foldl_addBookDistricts (l : List Book) (m : String → Nat) (v : String) :
    (l.foldl addBookDistricts m) v = m v + l.countP (hasDistrictVal v) := by
  induction l generalizing m with
  | nil => simp
  | cons b rest ih =>
    rw [List.foldl_cons, ih, List.countP_cons, addBookDistricts_apply]
    by_cases h : hasDistrictVal v b <;> simp [h] <;> omega

lemma subjectCounts_eq_countP (books : List Book) (sel : Selection) (v : String) :
    subjectCounts books sel v = (filteredBooks books sel).countP (hasSubjectVal v) := by
  rw [subjectCounts, foldl_addBookSubjects]
  omega

lemma stateCounts_eq_countP (books : List Book) (sel : Selection) (v : String) :
    stateCounts books sel v = (filteredBooks books sel).countP (hasStateVal v) := by
  rw [stateCounts, foldl_addBookStates]
  omega

lemma districtCounts_eq_countP (books : List Book) (sel : Selection) (v : String) :
    districtCounts books sel v = (filteredBooks books sel).countP (hasDistrictVal v) := by
  rw [districtCounts, foldl_addBookDistricts]
  omega

lemma bookPred_of_empty (sel : Selection) (h1 : sel.selectedSubjects = [])
    (h2 : sel.selectedStates = []) (h3 : sel.selectedDistricts = [])
    (h4 : sel.searchQuery = "") (b : Book) : bookPred sel b = true := by
  simp [bookPred, searchClause, subjectClause, stateClause, districtClause, h1, h2, h3, h4]

lemma filteredBooksPre_empty (books : List Book) :
    filteredBooksPre books emptySelection = books :=
  List.filter_eq_self.mpr fun b _ => bookPred_of_empty emptySelection rfl rfl rfl rfl b

lemma byBansDesc_trans : ∀ a b c : Book, byBansDesc a b → byBansDesc b c → byBansDesc a c := by
  intro a b c h1 h2
  simp only [byBansDesc, decide_eq_true_eq] at h1 h2 ⊢
  omega

lemma byBansDesc_total : ∀ a b : Book, byBansDesc a b || byBansDesc b a := by
  intro a b
  simp only [byBansDesc, Bool.or_eq_true, decide_eq_true_eq]
  omega

lemma pairwise_filter_banCount (l : List Book) (k : Nat) :
    (l.filter fun b => banCount b == k).Pairwise fun a b => byBansDesc a b = true := by
  induction l with
  | nil => simp
  | cons a rest ih =>
    by_cases h : banCount a = k
    · rw [List.filter_cons_of_pos (by simp [h])]
      refine List.Pairwise.cons ?_ ih
      intro b hb
      have hbk : banCount b = k := by
        have := List.of_mem_filter hb
        simpa using this
      simp [byBansDesc, h, hbk]
    · rw [List.filter_cons_of_neg (by simp [h])]
      exact ih

lemma filter_mergeSort_banCount (l : List Book) (k : Nat) :
    ((l.mergeSort byBansDesc).filter fun b => banCount b == k)
      = l.filter fun b => banCount b == k := by
  have hcc : ((l.filter fun b => banCount b == k).filter fun b => banCount b == k)
      = l.filter fun b => banCount b == k := by
    apply List.filter_eq_self.mpr
    intro a ha
    exact (List.mem_filter.mp ha).2
  have hsub : List.Sublist (l.filter fun b => banCount b == k) (l.mergeSort byBansDesc) :=
    List.sublist_mergeSort byBansDesc_trans byBansDesc_total
      (pairwise_filter_banCount l k) (List.filter_sublist l)
  have hsub2 : List.Sublist (l.filter fun b => banCount b == k)
      ((l.mergeSort byBansDesc).filter fun b => banCount b == k) := by
    have h2 := hsub.filter fun b => banCount b == k
    rwa [hcc] at h2
  have hlen : ((l.mergeSort byBansDesc).filter fun b => banCount b == k).length
      = (l.filter fun b => banCount b == k).length :=
    ((l.mergeSort_perm byBansDesc).filter _).length_eq
  exact (hsub2.eq_of_length hlen.symm).symm

/-- Claim C7: after every filter-state-changing operation of the explore
app — toggling a subject, state or district facet value, removing an
active facet value, changing the search query, or clearing all filters —
the current page number equals 1, for every starting state. -/
theorem c7_filter_change_resets_page (s : ExploreState) (op : Op) :
    (applyOp op s).currentPage = 1 := by
  cases op <;> rfl

/-- Claim C8: when the selection has no selected subjects, states or
districts and an empty search query, the filter predicate accepts every
book, so the filter returns the full input list unchanged in order
(before the ban-count sort). -/
theorem c8_empty_selection_passes_all (books : List Book) (sel : Selection)
    (h1 : sel.selectedSubjects = []) (h2 : sel.selectedStates = [])
    (h3 : sel.selectedDistricts = []) (h4 : sel.searchQuery = "") :
    (∀ b : Book, bookPred sel b = true) ∧ filteredBooksPre books sel = books :=
  ⟨bookPred_of_empty sel h1 h2 h3 h4,
    List.filter_eq_self.mpr fun b _ => bookPred_of_empty sel h1 h2 h3 h4 b⟩

/-- Witness for C8 at a concrete book list and the empty selection. -/
theorem c8_witness :
    (∀ b : Book, bookPred emptySelection b = true) ∧
      filteredBooksPre [bookA, bookB] emptySelection = [bookA, bookB] :=
  c8_empty_selection_passes_all [bookA, bookB] emptySelection rfl rfl rfl rfl

/-- Claim C9: the filter is idempotent — applying `filteredBooks` with the
same selection to its own output returns that output unchanged,
elementwise and in the same order. -/
theorem c9_filter_idempotent (books : List Book) (sel : Selection) :
    filteredBooks (filteredBooks books sel) sel = filteredBooks books sel := by
  have hfix : filteredBooksPre (filteredBooks books sel) sel = filteredBooks books sel := by
    apply List.filter_eq_self.mpr
    intro b hb
    have hb2 : b ∈ filteredBooksPre books sel := by
      rw [filteredBooks] at hb
      exact List.mem_mergeSort.mp hb
    exact (List.mem_filter.mp hb2).2
  rw [filteredBooks, hfix, filteredBooks]
  exact List.mergeSort_of_sorted
    (List.sorted_mergeSort byBansDesc_trans byBansDesc_total (filteredBooksPre books sel))

/-- Claim C5: the books surviving the filter are returned sorted by
descending ban count (`bans.length`, 0 when `bans` is absent or not an
array), the output is a permutation of the filter's output, and the sort
is stable: for every ban count the books with that count appear in the
same relative order as in the filter's output. -/
theorem c5_sorted_stable (books : List Book) (sel : Selection) :
    (filteredBooks books sel).Perm (filteredBooksPre books sel) ∧
      (filteredBooks books sel).Pairwise (fun a b => banCount b ≤ banCount a) ∧
      ∀ k : Nat, ((filteredBooks books sel).filter fun b => banCount b == k)
        = (filteredBooksPre books sel).filter fun b => banCount b == k := by
  refine ⟨(filteredBooksPre books sel).mergeSort_perm byBansDesc, ?_,
    fun k => filter_mergeSort_banCount (filteredBooksPre books sel) k⟩
  have h := List.sorted_mergeSort byBansDesc_trans byBansDesc_total
    (filteredBooksPre books sel)
  exact h.imp fun hab => by simpa [byBansDesc] using hab

/-- Claim C6: with page size 100, `totalPages` is the ceiling of
`n / 100` (0 when the filtered list is empty), the 1-based page `p` shows
the filtered books at indices `(p-1)*100` through `p*100 - 1`, and with
250 filtered books there are 3 pages and page 3 holds exactly 50 books. -/
theorem c6_pagination (books : List Book) (sel : Selection) (p i : Nat) :
    (totalPages books sel = 0 ↔ (filteredBooks books sel).length = 0) ∧
      (filteredBooks books sel).length ≤ itemsPerPage * totalPages books sel ∧
      (∀ m : Nat, (filteredBooks books sel).length ≤ itemsPerPage * m →
        totalPages books sel ≤ m) ∧
      ((paginatedBooks books sel p)[i]? =
        if i < itemsPerPage then
          (filteredBooks books sel)[(p - 1) * itemsPerPage + i]?
        else none) ∧
      ((filteredBooks books sel).length = 250 →
        totalPages books sel = 3 ∧ (paginatedBooks books sel 3).length = 50) := by
  refine ⟨?_, ?_, ?_, ?_, ?_⟩
  · rw [totalPages, itemsPerPage]
    omega
  · rw [totalPages, itemsPerPage]
    omega
  · intro m hm
    rw [itemsPerPage] at hm
    rw [totalPages, itemsPerPage]
    omega
  · rw [paginatedBooks]
    by_cases hi : i < itemsPerPage
    · rw [if_pos hi, List.getElem?_take_of_lt hi, List.getElem?_drop]
    · rw [if_neg hi]
      apply List.getElem?_eq_none
      have := List.length_take_le itemsPerPage
        ((filteredBooks books sel).drop ((p - 1) * itemsPerPage))
      omega
  · intro h250
    constructor
    · rw [totalPages, itemsPerPage, h250]
    · rw [paginatedBooks, List.length_take, List.length_drop, h250]
      rfl

/-- Witness for C6 at a list of 250 books that all pass the empty
selection: 3 total pages, 50 books on page 3. -/
theorem c6_witness :
    totalPages books250 emptySelection = 3 ∧
      (paginatedBooks books250 emptySelection 3).length = 50 ∧
      totalPages books250 emptySelection ≤ 3 := by
  have hlen : (filteredBooks books250 emptySelection).length = 250 := by
    rw [filteredBooks, List.length_mergeSort, filteredBooksPre_empty, books250,
      List.length_replicate]
  have h := c6_pagination books250 emptySelection 3 0
  refine ⟨(h.2.2.2.2 hlen).1, (h.2.2.2.2 hlen).2, h.2.2.1 3 ?_⟩
  rw [hlen, itemsPerPage]
  omega

/-- Claim C2: each facet count of the explore app is computed over the
filtered subset only: `subjectCounts v` (likewise `stateCounts v` and
`districtCounts v`) equals the number of distinct books in the filter's
output whose deduplicated subject (normalized state, district) value set
contains `v`, and a book rejected by the active filters contributes 0 to
every facet count. -/
theorem c2_counts_over_filtered (books : List Book) (sel : Selection) (v : String) :
    subjectCounts books sel v = (filteredBooks books sel).countP (hasSubjectVal v) ∧
      stateCounts books sel v = (filteredBooks books sel).countP (hasStateVal v) ∧
      districtCounts books sel v = (filteredBooks books sel).countP (hasDistrictVal v) ∧
      ∀ (l1 : List Book) (b : Book) (l2 : List Book), bookPred sel b = false →
        subjectCounts (l1 ++ b :: l2) sel v = subjectCounts (l1 ++ l2) sel v ∧
          stateCounts (l1 ++ b :: l2) sel v = stateCounts (l1 ++ l2) sel v ∧
          districtCounts (l1 ++ b :: l2) sel v = districtCounts (l1 ++ l2) sel v := by
  refine ⟨subjectCounts_eq_countP books sel v, stateCounts_eq_countP books sel v,
    districtCounts_eq_countP books sel v, ?_⟩
  intro l1 b l2 hb
  have hdrop : filteredBooks (l1 ++ b :: l2) sel = filteredBooks (l1 ++ l2) sel := by
    rw [filteredBooks, filteredBooks, filteredBooksPre, filteredBooksPre,
      List.filter_append, List.filter_append, List.filter_cons_of_neg (by simp [hb])]
  refine ⟨?_, ?_, ?_⟩
  · rw [subjectCounts, hdrop, subjectCounts]
  · rw [stateCounts, hdrop, stateCounts]
  · rw [districtCounts, hdrop, districtCounts]

/-- Witness for C2: a book with no subjects, rejected by a subject
selection, contributes nothing to the subject counts. -/
theorem c2_witness :
    subjectCounts [bookNoSubjects, bookA] selFictionOnly "Fiction"
      = subjectCounts [bookA] selFictionOnly "Fiction" := by
  have h := (c2_counts_over_filtered [] selFictionOnly "Fiction").2.2.2
    [] bookNoSubjects [bookA] (by decide)
  simpa using h.1

/-- Claim C3: a filtered book contributes at most 1 to each facet value's
count regardless of repetitions among its own subjects or bans; a book
with subjects `["a", "a", "b"]` contributes exactly 1 to the count of
`"a"` and exactly 1 to the count of `"b"`, and a book with two bans in
the same state contributes exactly 1 to that state's count. -/
theorem c3_distinct_per_book :
    (∀ (m : String → Nat) (b : Book) (v : String),
        addBookSubjects m b v ≤ m v + 1 ∧ addBookStates m b v ≤ m v + 1 ∧
          addBookDistricts m b v ≤ m v + 1) ∧
      subjectCounts [bookAAB] emptySelection "a" = 1 ∧
      subjectCounts [bookAAB] emptySelection "b" = 1 ∧
      stateCounts [bookTwoTexas] emptySelection "Texas" = 1 := by
  have hAAB : filteredBooks [bookAAB] emptySelection = [bookAAB] := by
    rw [filteredBooks, filteredBooksPre_empty, List.mergeSort_singleton]
  have hTT : filteredBooks [bookTwoTexas] emptySelection = [bookTwoTexas] := by
    rw [filteredBooks, filteredBooksPre_empty, List.mergeSort_singleton]
  refine ⟨fun m b v => ⟨?_, ?_, ?_⟩, ?_, ?_, ?_⟩
  · rw [addBookSubjects_apply]
    split <;> omega
  · rw [addBookStates_apply]
    split <;> omega
  · rw [addBookDistricts_apply]
    split <;> omega
  · rw [subjectCounts, hAAB]
    decide
  · rw [subjectCounts, hAAB]
    decide
  · rw [stateCounts, hTT]
    decide

/-- Claim C4: a ban whose raw state is `"Nation"` is counted under the
state facet value `"DoDEA"` and never under `"Nation"` (the normalization
never produces `"Nation"`), and selecting `"DoDEA"` in the state filter
matches the book: the state clause compares each ban's state only after
mapping `"Nation"` to `"DoDEA"`. -/
theorem c4_nation_dodea (b : Book) (bans : List Ban) (ban : Ban)
    (hb : b.bans = some bans) (hban : ban ∈ bans) (hst : ban.state = "Nation") :
    (∀ s : String, normState s ≠ "Nation") ∧
      (∀ (books : List Book) (sel : Selection), stateCounts books sel "Nation" = 0) ∧
      hasStateVal "DoDEA" b = true ∧
      stateClause ["DoDEA"] b = true ∧
      (∀ (books : List Book) (sel : Selection),
        b ∈ filteredBooks books sel → 1 ≤ stateCounts books sel "DoDEA") ∧
      ∀ books : List Book, b ∈ books → b ∈ filteredBooks books selDoDEA := by
  have hnorm : ∀ s : String, normState s ≠ "Nation" := by
    intro s
    rw [normState]
    split
    · decide
    · assumption
  have hdodea : hasStateVal "DoDEA" b = true := by
    simp only [hasStateVal, hb, List.any_eq_true]
    refine ⟨ban, hban, ?_⟩
    rw [hst]
    decide
  have hclause : stateClause ["DoDEA"] b = true := by
    simp only [stateClause, hb, List.isEmpty_cons]
    rw [if_neg (by decide), List.all_eq_true]
    intro st hmem
    rw [List.mem_singleton.mp hmem]
    have h2 := hdodea
    simp only [hasStateVal, hb] at h2
    exact h2
  refine ⟨hnorm, ?_, hdodea, hclause, ?_, ?_⟩
  · intro books sel
    rw [stateCounts_eq_countP]
    apply List.countP_eq_zero.mpr
    intro b2 _
    cases hb2 : b2.bans with
    | none => simp [hasStateVal, hb2]
    | some bans2 =>
      simp only [hasStateVal, hb2, List.any_eq_true, beq_iff_eq]
      rintro ⟨ban2, _, heq⟩
      exact hnorm ban2.state heq
  · intro books sel hmem
    rw [stateCounts_eq_countP]
    have hpos := List.countP_pos_iff.mpr ⟨b, hmem, hdodea⟩
    omega
  · intro books hmem
    rw [filteredBooks]
    apply List.mem_mergeSort.mpr
    rw [filteredBooksPre]
    apply List.mem_filter.mpr
    refine ⟨hmem, ?_⟩
    simp [bookPred, selDoDEA, searchClause, subjectClause, districtClause, hclause]

/-- Witness for C4 at the concrete book with one `"Nation"` ban. -/
theorem c4_witness :
    stateClause ["DoDEA"] bookNation = true ∧
      bookNation ∈ filteredBooks [bookNation] selDoDEA := by
  have h := c4_nation_dodea bookNation
    [{ state := "Nation", district := "Dept of Defense", ban_status := "" }]
    { state := "Nation", district := "Dept of Defense", ban_status := "" }
    rfl (List.mem_singleton.mpr rfl) rfl
  exact ⟨h.2.2.2.1, h.2.2.2.2.2 [bookNation] (List.mem_singleton.mpr rfl)⟩

/-- Counterexample to claim C1 as stated over the front-ends of the repo:
in the map front-end's info-panel filter, with subjects
`{"Fiction", "LGBTQ"}` selected, book A with subjects `["Fiction"]` is
admitted by the subject clause although its subjects do not contain every
selected value, and the filter returns both A and B, not only B. -/
theorem c1_counterexample :
    bookA.subjects = SubjectsField.array ["Fiction"] ∧
      mapSelFL.selectedSubjects = ["Fiction", "LGBTQ"] ∧
      (["Fiction"] : List String).contains "LGBTQ" = false ∧
      mapSubjectClause mapSelFL.selectedSubjects bookA = true ∧
      mapFilteredBooks [bookA, bookB] mapSelFL = [bookA, bookB] := by
  decide

/-- Claim C1 amended: in the explore front-end the subject clause has
has-ALL semantics — with a non-empty subject selection a book is admitted
iff its `subjects` field is an array containing every selected value, and
on the spec's example only B passes — while in the map front-end's
info-panel filter the subject clause has has-ANY semantics: a book whose
`subjects` field is an array is admitted iff at least one of its subjects
is selected. -/
theorem c1_subject_semantics :
    (∀ (selected : List String) (b : Book), selected ≠ [] →
        (subjectClause selected b = true ↔
          ∃ l, b.subjects = SubjectsField.array l ∧ ∀ v ∈ selected, v ∈ l)) ∧
      filteredBooks [bookA, bookB] exploreSelFL = [bookB] ∧
      ∀ (selected : List String) (b : Book) (l : List String), selected ≠ [] →
        b.subjects = SubjectsField.array l →
        (mapSubjectClause selected b = true ↔ ∃ v ∈ selected, v ∈ l) := by
  refine ⟨?_, ?_, ?_⟩
  · intro selected b hne
    cases selected with
    | nil => exact absurd rfl hne
    | cons s ss =>
      cases hs : b.subjects with
      | missing => simp [subjectClause, hs]
      | scalar t => simp [subjectClause, hs]
      | array l => simp [subjectClause, hs, List.all_eq_true, List.contains]
  · have hpre : filteredBooksPre [bookA, bookB] exploreSelFL = [bookB] := by decide
    rw [filteredBooks, hpre, List.mergeSort_singleton]
  · intro selected b l hne hs
    cases selected with
    | nil => exact absurd rfl hne
    | cons s ss =>
      simp only [mapSubjectClause, hs, List.isEmpty_cons, Bool.false_eq_true,
        if_false, List.any_eq_true, List.contains, List.elem_eq_mem, decide_eq_true_eq]
      constructor
      · rintro ⟨x, hx, hxs⟩
        exact ⟨x, hxs, hx⟩
      · rintro ⟨v, hv, hvl⟩
        exact ⟨v, hvl, hv⟩

/-- Witness for C1 (amended): the explore subject clause admits book B
and rejects book A under the selection `{"Fiction", "LGBTQ"}`, and the map
subject clause admits book A there. -/
theorem c1_witness :
    subjectClause ["Fiction", "LGBTQ"] bookB = true ∧
      mapSubjectClause ["Fiction", "LGBTQ"] bookA = true := by
  have hall := (c1_subject_semantics.1 ["Fiction", "LGBTQ"] bookB (by decide)).mpr
    ⟨["Fiction", "LGBTQ"], rfl, by decide⟩
  have hany := (c1_subject_semantics.2.2 ["Fiction", "LGBTQ"] bookA ["Fiction"]
    (by decide) rfl).mpr ⟨"Fiction", by decide, by decide⟩
  exact ⟨hall, hany⟩

/-- Claim C10: in the report's `analyzeData`, a book whose `subjects`
field is absent or not an array contributes nothing at all — none of its
ban events reaches any state's or district's aggregates or `totalBans` —
and symmetrically for a book whose `bans` field is absent or not an
array. -/
theorem c10_analyzeData_skips (b : Book)
    (h : b.bans = none ∨ b.subjects = SubjectsField.missing ∨
      ∃ s, b.subjects = SubjectsField.scalar s) :
    ∀ l1 l2 : List Book, analyzeData (l1 ++ b :: l2) = analyzeData (l1 ++ l2) := by
  have hskip : ∀ sd, processBook sd b = sd := by
    intro sd
    cases hbans : b.bans with
    | none => simp [processBook, hbans]
    | some bans =>
      cases hsub : b.subjects with
      | missing => simp [processBook, hbans, hsub]
      | scalar s => simp [processBook, hbans, hsub]
      | array l =>
        exfalso
        rcases h with hx | hx | ⟨s, hx⟩
        · rw [hbans] at hx
          exact Option.noConfusion hx
        · rw [hsub] at hx
          exact SubjectsField.noConfusion hx
        · rw [hsub] at hx
          exact SubjectsField.noConfusion hx
  intro l1 l2
  rw [analyzeData, analyzeData, List.foldl_append, List.foldl_append,
    List.foldl_cons, hskip]

/-- Witness for C10: a book with two valid bans but no subjects array is
skipped entirely by `analyzeData`. -/
theorem c10_witness :
    analyzeData [bookPlain, bookNoSubjects] = analyzeData [bookPlain] := by
  simpa using c10_analyzeData_skips bookNoSubjects (Or.inr (Or.inl rfl)) [bookPlain] []

end BookBans
